import Mathlib

/-!
Verification of the save-state module (src/Source/savestate.c) of tmnt64.

The C module keeps one process-wide in-memory copy of a fixed-size save
record (struct GameSave), a capability flag global_cansave, and talks to an
EEPROM device and to the game-state provider interface (core_*, results_*,
minigame_*).  We embed the record as a Lean structure of Nat byte fields
(MAXPLAYERS = 4, so the playerconts and points arrays are unrolled to four
fields each, exactly as savestate_load addresses players PLAYER_1..PLAYER_4),
the globals as an explicit state structure, and each operation as a function
from state to state paired with the trace of externally visible effects
(EEPROM reads/writes and calls into the state-provider interface).
Machine integers are Nat with explicit % 256 (uint8) and % 4294967296
(uint32) where the C code truncates.
-/

set_option maxHeartbeats 1000000

/-- struct GameSave from savestate.c.  Field order matches the struct
declaration: header[4], blacklist (uint32), crashedflag, aidiff,
pointstowin, nextplaystyle, playerconts[4], points[4], chooser, curgame,
checksum.  All byte fields are kept below 256 by the operations. -/
structure GameSave where
  header0 : Nat
  header1 : Nat
  header2 : Nat
  header3 : Nat
  blacklist : Nat
  crashedflag : Nat
  aidiff : Nat
  pointstowin : Nat
  nextplaystyle : Nat
  playerconts0 : Nat
  playerconts1 : Nat
  playerconts2 : Nat
  playerconts3 : Nat
  points0 : Nat
  points1 : Nat
  points2 : Nat
  points3 : Nat
  chooser : Nat
  curgame : Nat
  checksum : Nat
deriving DecidableEq, Repr

/-- The byte image of the record, in struct declaration order: the bytes
that calc_checksum iterates over and that eeprom_write_bytes persists.
The four blacklist bytes are the big-endian bytes of the uint32 field
(byte order does not affect the checksum, which only sums them). -/
def saveBytes (g : GameSave) : List Nat :=
  [g.header0, g.header1, g.header2, g.header3,
   g.blacklist / 16777216 % 256, g.blacklist / 65536 % 256,
   g.blacklist / 256 % 256, g.blacklist % 256,
   g.crashedflag, g.aidiff, g.pointstowin, g.nextplaystyle,
   g.playerconts0, g.playerconts1, g.playerconts2, g.playerconts3,
   g.points0, g.points1, g.points2, g.points3,
   g.chooser, g.curgame, g.checksum]

/-- All bytes of the record except the final checksum byte. -/
def otherBytes (g : GameSave) : List Nat :=
  [g.header0, g.header1, g.header2, g.header3,
   g.blacklist / 16777216 % 256, g.blacklist / 65536 % 256,
   g.blacklist / 256 % 256, g.blacklist % 256,
   g.crashedflag, g.aidiff, g.pointstowin, g.nextplaystyle,
   g.playerconts0, g.playerconts1, g.playerconts2, g.playerconts3,
   g.points0, g.points1, g.points2, g.points3,
   g.chooser, g.curgame]

/-- calc_checksum from savestate.c: adds together, in a uint8 accumulator,
every byte of the struct - the loop runs over sizeof(GameSave), so the
current value of the checksum byte itself is part of the sum. -/
def calc_checksum (g : GameSave) : Nat :=
  (saveBytes g).sum % 256

/-- The zero-initialized record (C global zero initialization / memset 0). -/
def zeroedSave : GameSave :=
  ⟨0, 0, 0, 0, 0, 0, 0, 0, 0, 0, 0, 0, 0, 0, 0, 0, 0, 0, 0, 0⟩

/-- One byte of the EEPROM image (a byte device, hence % 256). -/
def readByte (e : List Nat) (i : Nat) : Nat :=
  e.getD i 0 % 256

/-- eeprom_read_bytes(&global_gamesave, 0, sizeof(GameSave)): the record
obtained by reading the struct's bytes from offset 0 of the device image. -/
def deserialize (e : List Nat) : GameSave :=
  { header0 := readByte e 0
    header1 := readByte e 1
    header2 := readByte e 2
    header3 := readByte e 3
    blacklist := readByte e 4 * 16777216 + readByte e 5 * 65536 +
                 readByte e 6 * 256 + readByte e 7
    crashedflag := readByte e 8
    aidiff := readByte e 9
    pointstowin := readByte e 10
    nextplaystyle := readByte e 11
    playerconts0 := readByte e 12
    playerconts1 := readByte e 13
    playerconts2 := readByte e 14
    playerconts3 := readByte e 15
    points0 := readByte e 16
    points1 := readByte e 17
    points2 := readByte e 18
    points3 := readByte e 19
    chooser := readByte e 20
    curgame := readByte e 21
    checksum := readByte e 22 }

/-- The strncmp(global_gamesave.header, "NBGJ", 4) == 0 test.  The magic
bytes are 78 66 71 74 (ASCII N, B, G, J). -/
def headerOk (g : GameSave) : Bool :=
  g.header0 == 78 && g.header1 == 66 && g.header2 == 71 && g.header3 == 74

/-- The reformat branch of the EEPROM-detection routine: memset the record
to zero, write the magic bytes, then store calc_checksum() - computed while
the checksum byte is still zero. -/
def formatRecord : GameSave :=
  let g : GameSave :=
    { zeroedSave with header0 := 78, header1 := 66, header2 := 71, header3 := 74 }
  { g with checksum := calc_checksum g }

/-- Externally visible effects of an operation: EEPROM traffic and the calls
pushed through the game-state provider interface by savestate_load. -/
inductive Effect where
  | eepromRead : Effect
  | eepromWrite : List Nat → Effect
  | setPlayercount : List Bool → Effect
  | setAidifficulty : Nat → Effect
  | setPointsToWin : Nat → Effect
  | setPoints : Nat → Nat → Effect
  | setNextround : Nat → Effect
  | setCurchooser : Nat → Effect
  | loadMinigame : Nat → Effect
deriving DecidableEq, Repr

/-- Whether an effect is an EEPROM write. -/
def Effect.isWrite : Effect → Bool
  | .eepromWrite _ => true
  | _ => false

/-- Whether an effect is any storage access (EEPROM read or write). -/
def Effect.isStorage : Effect → Bool
  | .eepromRead => true
  | .eepromWrite _ => true
  | _ => false

/-- The module's globals (global_cansave, global_gamesave) together with the
EEPROM device image. -/
structure SysState where
  cansave : Bool
  gamesave : GameSave
  eeprom : List Nat
deriving DecidableEq, Repr

/-- eeprom_write_bytes(&global_gamesave, 0, sizeof(GameSave)): the device
image after writing the record's bytes at offset 0. -/
def writeImage (g : GameSave) (e : List Nat) : List Nat :=
  saveBytes g ++ e.drop 23

/-- savestate.c names this routine after the EEPROM-detection step; we use
the short name savestate_init for it.  `present` is the outcome of the
eeprom_present() != EEPROM_NONE probe.  If no device is present it sets
cansave to false and returns false; otherwise it sets cansave, reads the
record from EEPROM, reformats the in-memory record when the magic bytes do
not match, and returns true.  It never writes to EEPROM. -/
def savestate_init (present : Bool) (s : SysState) : Bool × SysState × List Effect :=
  if !present then
    (false, { s with cansave := false }, [])
  else
    let g0 := deserialize s.eeprom
    let g := if headerOk g0 then g0 else formatRecord
    (true, { s with cansave := true, gamesave := g }, [Effect.eepromRead])

/-- savestate_checkcrashed: returns the crashedflag byte as a C bool
(nonzero means true). -/
def savestate_checkcrashed (s : SysState) : Bool :=
  s.gamesave.crashedflag != 0

/-- The values the full-save path fetches from the game-state providers:
core_get_playerconts, core_get_aidifficulty, results_get_points_to_win,
results_get_points(PLAYER_1..PLAYER_4), core_get_nextround,
core_get_curchooser, minigame_get_index. -/
structure GameInputs where
  playerconts0 : Bool
  playerconts1 : Bool
  playerconts2 : Bool
  playerconts3 : Bool
  aidiff : Nat
  pointstowin : Nat
  points0 : Nat
  points1 : Nat
  points2 : Nat
  points3 : Nat
  nextplaystyle : Nat
  chooser : Nat
  curgame : Nat
deriving DecidableEq, Repr

/-- The body of the `if (!configonly)` block of savestate_save: set
crashedflag to 1, capture every game-state field into the record (uint8
stores, hence % 256; bools store as 0/1), then store calc_checksum() -
computed while the checksum byte still holds its previous value. -/
def captureState (inp : GameInputs) (g : GameSave) : GameSave :=
  let g := { g with
    crashedflag := 1
    playerconts0 := if inp.playerconts0 then 1 else 0
    playerconts1 := if inp.playerconts1 then 1 else 0
    playerconts2 := if inp.playerconts2 then 1 else 0
    playerconts3 := if inp.playerconts3 then 1 else 0
    aidiff := inp.aidiff % 256
    pointstowin := inp.pointstowin % 256
    points0 := inp.points0 % 256
    points1 := inp.points1 % 256
    points2 := inp.points2 % 256
    points3 := inp.points3 % 256
    nextplaystyle := inp.nextplaystyle % 256
    chooser := inp.chooser % 256
    curgame := inp.curgame % 256 }
  { g with checksum := calc_checksum g }

/-- savestate_save(configonly): no-op if cansave is unset; otherwise capture
the game state (full-save path only, configonly = false) and write the whole
record to EEPROM at offset 0. -/
def savestate_save (configonly : Bool) (inp : GameInputs) (s : SysState) :
    SysState × List Effect :=
  if !s.cansave then (s, [])
  else
    let g := if !configonly then captureState inp s.gamesave else s.gamesave
    ({ s with gamesave := g, eeprom := writeImage g s.eeprom },
     [Effect.eepromWrite (saveBytes g)])

/-- savestate_load: no-op if cansave is unset; otherwise push every record
field out through the state-provider interface, in program order, and
request the minigame at curgame.  It touches neither the record nor the
EEPROM. -/
def savestate_load (s : SysState) : SysState × List Effect :=
  if !s.cansave then (s, [])
  else
    let g := s.gamesave
    (s,
     [Effect.setPlayercount
        [g.playerconts0 != 0, g.playerconts1 != 0,
         g.playerconts2 != 0, g.playerconts3 != 0],
      Effect.setAidifficulty g.aidiff,
      Effect.setPointsToWin g.pointstowin,
      Effect.setPoints 1 g.points0,
      Effect.setPoints 2 g.points1,
      Effect.setPoints 3 g.points2,
      Effect.setPoints 4 g.points3,
      Effect.setNextround g.nextplaystyle,
      Effect.setCurchooser g.chooser,
      Effect.loadMinigame g.curgame])

/-- savestate_clear: no-op if cansave is unset; otherwise zero the
crashedflag byte (nothing else - in particular the checksum byte is left
as it was) and write the whole record to EEPROM. -/
def savestate_clear (s : SysState) : SysState × List Effect :=
  if !s.cansave then (s, [])
  else
    let g := { s.gamesave with crashedflag := 0 }
    ({ s with gamesave := g, eeprom := writeImage g s.eeprom },
     [Effect.eepromWrite (saveBytes g)])

/-- The packing loop of savestate_setblacklist: a uint32 accumulator that
ORs (list[i] & 1) << i for each i below global_minigame_count (the `count`
parameter), truncating to 32 bits as every uint32 store does. -/
def packBlacklist (count : Nat) (list : List Bool) : Nat :=
  (List.range count).foldl
    (fun bitfield i =>
      (bitfield ||| ((if list.getD i false then 1 else 0) <<< i)) % 4294967296)
    0

/-- savestate_setblacklist: rebuild the 32-bit blacklist field from the
boolean list.  Not guarded by cansave; touches no other field and no
storage. -/
def savestate_setblacklist (count : Nat) (list : List Bool) (s : SysState) :
    SysState :=
  { s with gamesave := { s.gamesave with blacklist := packBlacklist count list } }

/-- savestate_getblacklist: list[i] = (blacklist >> i) & 1, as a C bool,
for each i below global_minigame_count. -/
def savestate_getblacklist (count : Nat) (s : SysState) : List Bool :=
  (List.range count).map (fun i => ((s.gamesave.blacklist >>> i) &&& 1) != 0)

/-- One call into the module, with the environment data it consumes. -/
inductive Op where
  | init : Bool → Op
  | save : Bool → GameInputs → Op
  | load : Op
  | clear : Op
  | setblacklist : Nat → List Bool → Op
deriving DecidableEq, Repr

/-- Whether an operation is the EEPROM-detection call. -/
def Op.isInit : Op → Bool
  | .init _ => true
  | _ => false

/-- The state reached after one call (effects discarded). -/
def stepOp (s : SysState) (op : Op) : SysState :=
  match op with
  | .init p => (savestate_init p s).2.1
  | .save c inp => (savestate_save c inp s).1
  | .load => (savestate_load s).1
  | .clear => (savestate_clear s).1
  | .setblacklist c l => savestate_setblacklist c l s

/-- The state reached after a sequence of calls. -/
def runOps (s : SysState) (ops : List Op) : SysState :=
  ops.foldl stepOp s

/-- Process start: C globals are zero-initialized, so global_cansave is 0
and global_gamesave is all zero bytes; the EEPROM holds some image e. -/
def boot (e : List Nat) : SysState :=
  ⟨false, zeroedSave, e⟩

/-- A state is reachable when some EEPROM image and some call sequence
produce it from process start. -/
def Reachable (s : SysState) : Prop :=
  ∃ e ops, runOps (boot e) ops = s

/-! Helper lemmas. -/

/-- Bitwise or of two naturals below a power of two stays below it. -/
theorem lor_lt_two_pow {x y n : Nat} (hx : x < 2 ^ n) (hy : y < 2 ^ n) :
    x ||| y < 2 ^ n :=
  Nat.bitwise_lt_two_pow hx hy

/-- Unfolding one iteration of the blacklist packing loop. -/
theorem packBlacklist_succ (n : Nat) (l : List Bool) :
    packBlacklist (n + 1) l =
      (packBlacklist n l ||| ((if l.getD n false then 1 else 0) <<< n)) % 4294967296 := by
  unfold packBlacklist
  rw [List.range_succ, List.foldl_append]
  rfl

/-- The packed blacklist is bounded by 2 to the min of the count and 32. -/
theorem packBlacklist_lt (n : Nat) (l : List Bool) :
    packBlacklist n l < 2 ^ min n 32 := by
  induction n with
  | zero => simp [packBlacklist]
  | succ n ih =>
    rw [packBlacklist_succ]
    by_cases h : n < 32
    · have hmin : min n 32 = n := by omega
      have hmin1 : min (n + 1) 32 = n + 1 := by omega
      rw [hmin] at ih
      rw [hmin1]
      have hb : ((if l.getD n false then 1 else 0) <<< n) < 2 ^ (n + 1) := by
        split
        · rw [Nat.one_shiftLeft]
          exact Nat.pow_lt_pow_succ (by omega)
        · rw [Nat.zero_shiftLeft]
          exact Nat.pos_pow_of_pos _ (by omega)
      have hp : packBlacklist n l < 2 ^ (n + 1) :=
        lt_trans ih (Nat.pow_lt_pow_succ (by omega))
      have hor := lor_lt_two_pow hp hb
      have hle : (2 : Nat) ^ (n + 1) ≤ 4294967296 := by
        have : (4294967296 : Nat) = 2 ^ 32 := by norm_num
        rw [this]
        exact Nat.pow_le_pow_right (by omega) (by omega)
      rw [Nat.mod_eq_of_lt (lt_of_lt_of_le hor hle)]
      exact hor
    · have hmin1 : min (n + 1) 32 = 32 := by omega
      rw [hmin1]
      have : (4294967296 : Nat) = 2 ^ 32 := by norm_num
      rw [← this]
      exact Nat.mod_lt _ (by norm_num)

/-- Bits at or above the count are clear in the packed blacklist. -/
theorem packBlacklist_testBit_ge (count : Nat) (l : List Bool) (i : Nat)
    (h : count ≤ i) : (packBlacklist count l).testBit i = false := by
  apply Nat.testBit_lt_two_pow
  exact lt_of_lt_of_le (packBlacklist_lt count l)
    (Nat.pow_le_pow_right (by omega) (by omega))

/-- Bits below the count in the packed blacklist are the input booleans. -/
theorem packBlacklist_testBit_lt (count : Nat) (hc : count ≤ 32) (l : List Bool)
    (i : Nat) (hi : i < count) :
    (packBlacklist count l).testBit i = l.getD i false := by
  induction count with
  | zero => omega
  | succ n ih =>
    rw [packBlacklist_succ]
    have h32 : (4294967296 : Nat) = 2 ^ 32 := by norm_num
    rw [h32, Nat.testBit_mod_two_pow]
    have hi32 : i < 32 := by omega
    rw [Nat.testBit_lor, Nat.testBit_shiftLeft]
    rcases Nat.lt_or_ge i n with h | h
    · rw [ih (by omega) (by omega)]
      have hlt : ¬ (i ≥ n) := by omega
      simp [hi32, hlt]
    · have hin : i = n := by omega
      subst hin
      have hbit : (packBlacklist i l).testBit i = false := by
        apply Nat.testBit_lt_two_pow
        have hm : min i 32 = i := by omega
        have := packBlacklist_lt i l
        rw [hm] at this
        exact this
      rw [hbit]
      cases hb : l.getD i false <;> simp [hi32, hb]

/-- The getblacklist bit test (blacklist >> i) & 1 != 0 is Nat.testBit. -/
theorem bitTest_eq_testBit (x i : Nat) :
    (((x >>> i) &&& 1) != 0) = x.testBit i := by
  rw [Nat.and_one_is_mod, Nat.testBit_to_div_mod, Nat.shiftRight_eq_div_pow]
  rcases Nat.mod_two_eq_zero_or_one (x / 2 ^ i) with h | h <;> simp [h]

/-- Round trip: packing then unpacking the blacklist returns the input list,
for any registered-minigame count of at most 32. -/
theorem getblacklist_setblacklist (count : Nat) (hc : count ≤ 32)
    (flags : List Bool) (hl : flags.length = count) (s : SysState) :
    savestate_getblacklist count (savestate_setblacklist count flags s) = flags := by
  have hb : (savestate_setblacklist count flags s).gamesave.blacklist
      = packBlacklist count flags := rfl
  unfold savestate_getblacklist
  rw [hb]
  apply List.ext_getElem
  · simp [hl]
  · intro i h1 h2
    simp only [List.getElem_map, List.getElem_range]
    rw [bitTest_eq_testBit]
    rw [packBlacklist_testBit_lt count hc flags i (by simpa using h1)]
    rw [List.getD_eq_getElem?_getD, List.getElem?_eq_getElem (by omega), Option.getD_some]

/-! Claim theorems. -/

/-- C1, counterexample: in the reachable state produced by booting with a
blank EEPROM and running the detection routine (which reformats the record,
leaving checksum byte 33), a full save stores a checksum that does NOT equal
the sum of the other bytes mod 256 - calc_checksum also added the stale
checksum byte 33 into the sum. -/
theorem savestate_c1_counterexample :
    Reachable (runOps (boot []) [Op.init true]) ∧
    (runOps (boot []) [Op.init true]).cansave = true ∧
    ¬ ((savestate_save false ⟨false, false, false, false, 0, 0, 0, 0, 0, 0, 0, 0, 0⟩
          (runOps (boot []) [Op.init true])).1.gamesave.checksum
        = (otherBytes (savestate_save false
            ⟨false, false, false, false, 0, 0, 0, 0, 0, 0, 0, 0, 0⟩
            (runOps (boot []) [Op.init true])).1.gamesave).sum % 256) :=
  ⟨⟨[], [Op.init true], rfl⟩, rfl, by decide⟩

/-- C1, amended: for every state with can-persist set, after a full save the
record's checksum byte equals the sum of all the record's other bytes PLUS
the pre-call checksum byte, modulo 256 (calc_checksum sums the whole struct,
the stale checksum byte included); and a clear() call leaves the checksum
byte unchanged (savestate_clear does not recompute it). -/
theorem savestate_c1_amended (s : SysState) (h : s.cansave = true)
    (inp : GameInputs) :
    (savestate_save false inp s).1.gamesave.checksum
        = ((otherBytes (savestate_save false inp s).1.gamesave).sum
            + s.gamesave.checksum) % 256
      ∧ (savestate_clear s).1.gamesave.checksum = s.gamesave.checksum := by
  constructor
  · simp only [savestate_save, h, Bool.not_true, Bool.false_eq_true, if_false,
      Bool.not_false, if_true, captureState, calc_checksum, saveBytes, otherBytes]
    simp only [List.sum_cons, List.sum_nil]
    omega
  · simp [savestate_clear, h]

/-- C1 amended, witness at a concrete state with cansave set. -/
theorem savestate_c1_amended_witness :
    (savestate_save false ⟨false, false, false, false, 0, 0, 0, 0, 0, 0, 0, 0, 0⟩
        (⟨true, zeroedSave, []⟩ : SysState)).1.gamesave.checksum
        = ((otherBytes (savestate_save false
            ⟨false, false, false, false, 0, 0, 0, 0, 0, 0, 0, 0, 0⟩
            (⟨true, zeroedSave, []⟩ : SysState)).1.gamesave).sum
            + (⟨true, zeroedSave, []⟩ : SysState).gamesave.checksum) % 256
      ∧ (savestate_clear (⟨true, zeroedSave, []⟩ : SysState)).1.gamesave.checksum
          = (⟨true, zeroedSave, []⟩ : SysState).gamesave.checksum :=
  savestate_c1_amended ⟨true, zeroedSave, []⟩ rfl
    ⟨false, false, false, false, 0, 0, 0, 0, 0, 0, 0, 0, 0⟩

/-- Invariant: from a state with cansave unset, any sequence of calls that
does not rerun the detection routine keeps cansave unset and leaves the
crashedflag byte and the EEPROM image untouched. -/
theorem noInit_preserve (ops : List Op) :
    ∀ s : SysState, s.cansave = false → (∀ op ∈ ops, op.isInit = false) →
      (runOps s ops).cansave = false ∧
      (runOps s ops).gamesave.crashedflag = s.gamesave.crashedflag ∧
      (runOps s ops).eeprom = s.eeprom := by
  induction ops with
  | nil => exact fun s h _ => ⟨h, rfl, rfl⟩
  | cons op ops ih =>
    intro s h hops
    have hop : op.isInit = false := hops op (by simp)
    have hrest : ∀ o ∈ ops, o.isInit = false := fun o ho => hops o (by simp [ho])
    have hstep : (stepOp s op).cansave = false ∧
        (stepOp s op).gamesave.crashedflag = s.gamesave.crashedflag ∧
        (stepOp s op).eeprom = s.eeprom := by
      cases op with
      | init p => simp [Op.isInit] at hop
      | save c inp => simp [stepOp, savestate_save, h]
      | load => simp [stepOp, savestate_load, h]
      | clear => simp [stepOp, savestate_clear, h]
      | setblacklist c l => simp [stepOp, savestate_setblacklist, h]
    have hrun : runOps s (op :: ops) = runOps (stepOp s op) ops := rfl
    have hrec := ih (stepOp s op) hstep.1 hrest
    rw [hrun]
    exact ⟨hrec.1, hrec.2.1.trans hstep.2.1, hrec.2.2.trans hstep.2.2⟩

/-- C2: if the detection routine found no EEPROM, then after any further
calls (none of which rerun detection), crashed() reports false, and save
(either mode), load and clear all leave the state - record and storage -
unchanged, producing no effects. -/
theorem savestate_c2 (e : List Nat) (ops : List Op)
    (hops : ∀ op ∈ ops, op.isInit = false) :
    savestate_checkcrashed (runOps (boot e) (Op.init false :: ops)) = false ∧
    (∀ c inp, savestate_save c inp (runOps (boot e) (Op.init false :: ops))
        = (runOps (boot e) (Op.init false :: ops), [])) ∧
    savestate_load (runOps (boot e) (Op.init false :: ops))
        = (runOps (boot e) (Op.init false :: ops), []) ∧
    savestate_clear (runOps (boot e) (Op.init false :: ops))
        = (runOps (boot e) (Op.init false :: ops), []) := by
  have h0 : (stepOp (boot e) (Op.init false)).cansave = false := by
    simp [stepOp, savestate_init, boot]
  have h0c : (stepOp (boot e) (Op.init false)).gamesave.crashedflag = 0 := by
    simp [stepOp, savestate_init, boot, zeroedSave]
  have hrun : runOps (boot e) (Op.init false :: ops)
      = runOps (stepOp (boot e) (Op.init false)) ops := rfl
  have hmain := noInit_preserve ops (stepOp (boot e) (Op.init false)) h0 hops
  rw [hrun]
  refine ⟨?_, ?_, ?_, ?_⟩
  · simp [savestate_checkcrashed, hmain.2.1, h0c]
  · intro c inp
    simp [savestate_save, hmain.1]
  · simp [savestate_load, hmain.1]
  · simp [savestate_clear, hmain.1]

/-- C2, witness: blank EEPROM, failed detection, then a clear call. -/
theorem savestate_c2_witness :
    savestate_checkcrashed (runOps (boot []) [Op.init false, Op.clear]) = false ∧
    savestate_save true ⟨false, false, false, false, 0, 0, 0, 0, 0, 0, 0, 0, 0⟩
        (runOps (boot []) [Op.init false, Op.clear])
        = (runOps (boot []) [Op.init false, Op.clear], []) ∧
    savestate_load (runOps (boot []) [Op.init false, Op.clear])
        = (runOps (boot []) [Op.init false, Op.clear], []) :=
  ⟨(savestate_c2 [] [Op.clear] (by decide)).1,
   (savestate_c2 [] [Op.clear] (by decide)).2.1 true
     ⟨false, false, false, false, 0, 0, 0, 0, 0, 0, 0, 0, 0⟩,
   (savestate_c2 [] [Op.clear] (by decide)).2.2.1⟩

/-- C3: with can-persist set, a full save (configonly = false) makes
crashed() report true; clearing right after that save makes it report false
again; and a load call never changes what crashed() reports. -/
theorem savestate_c3 (s : SysState) (inp : GameInputs) (h : s.cansave = true) :
    savestate_checkcrashed (savestate_save false inp s).1 = true ∧
    savestate_checkcrashed (savestate_clear (savestate_save false inp s).1).1 = false ∧
    (∀ t : SysState, savestate_checkcrashed (savestate_load t).1
        = savestate_checkcrashed t) := by
  refine ⟨?_, ?_, ?_⟩
  · simp [savestate_save, h, savestate_checkcrashed, captureState]
  · simp [savestate_save, h, savestate_clear, savestate_checkcrashed, captureState]
  · intro t
    cases ht : t.cansave <;> simp [savestate_load, ht]

/-- C3, witness at a concrete state with cansave set. -/
theorem savestate_c3_witness :
    savestate_checkcrashed (savestate_save false
        ⟨false, false, false, false, 0, 0, 0, 0, 0, 0, 0, 0, 0⟩
        (⟨true, zeroedSave, []⟩ : SysState)).1 = true ∧
    savestate_checkcrashed (savestate_clear (savestate_save false
        ⟨false, false, false, false, 0, 0, 0, 0, 0, 0, 0, 0, 0⟩
        (⟨true, zeroedSave, []⟩ : SysState)).1).1 = false :=
  ⟨(savestate_c3 ⟨true, zeroedSave, []⟩
      ⟨false, false, false, false, 0, 0, 0, 0, 0, 0, 0, 0, 0⟩ rfl).1,
   (savestate_c3 ⟨true, zeroedSave, []⟩
      ⟨false, false, false, false, 0, 0, 0, 0, 0, 0, 0, 0, 0⟩ rfl).2.1⟩

/-- C4: for any registered-minigame count of at most 32 and any boolean
list of that length, setBlacklist followed by getBlacklist returns the same
list, with no save or load in between. -/
theorem savestate_c4 (count : Nat) (hc : count ≤ 32) (flags : List Bool)
    (hl : flags.length = count) (s : SysState) :
    savestate_getblacklist count (savestate_setblacklist count flags s) = flags :=
  getblacklist_setblacklist count hc flags hl s

/-- C4, witness at count 3. -/
theorem savestate_c4_witness :
    savestate_getblacklist 3 (savestate_setblacklist 3 [true, false, true] (boot []))
      = [true, false, true] :=
  savestate_c4 3 (by omega) [true, false, true] rfl (boot [])

/-- C5: a config-only save (configonly = true, i.e. fullUpdate false) leaves
the whole in-memory record - crashedflag, aidiff, pointstowin, playerconts,
points, nextplaystyle, chooser, curgame included - untouched; its result
does not depend on the game-state providers at all; when cansave is set it
persists exactly the pre-call record image (which carries the already-set
blacklist bytes); when cansave is unset it is a complete no-op. -/
theorem savestate_c5 (s : SysState) (inp : GameInputs) :
    (savestate_save true inp s).1.gamesave = s.gamesave ∧
    (∀ inp2 : GameInputs, savestate_save true inp2 s = savestate_save true inp s) ∧
    (s.cansave = true →
      (savestate_save true inp s).2 = [Effect.eepromWrite (saveBytes s.gamesave)] ∧
      (savestate_save true inp s).1.eeprom = writeImage s.gamesave s.eeprom) ∧
    (s.cansave = false → savestate_save true inp s = (s, [])) := by
  cases h : s.cansave <;> simp [savestate_save, h]

/-- C5, witness at a concrete state with cansave set. -/
theorem savestate_c5_witness :
    (savestate_save true ⟨true, true, false, false, 5, 7, 1, 2, 3, 4, 1, 2, 6⟩
        (⟨true, zeroedSave, []⟩ : SysState)).1.gamesave = zeroedSave ∧
    (savestate_save true ⟨true, true, false, false, 5, 7, 1, 2, 3, 4, 1, 2, 6⟩
        (⟨true, zeroedSave, []⟩ : SysState)).2
      = [Effect.eepromWrite (saveBytes zeroedSave)] :=
  ⟨(savestate_c5 ⟨true, zeroedSave, []⟩
      ⟨true, true, false, false, 5, 7, 1, 2, 3, 4, 1, 2, 6⟩).1,
   ((savestate_c5 ⟨true, zeroedSave, []⟩
      ⟨true, true, false, false, 5, 7, 1, 2, 3, 4, 1, 2, 6⟩).2.2.1 rfl).1⟩

/-- C6: when the EEPROM image does not start with the magic bytes, the
detection routine leaves in memory exactly the reformatted record: magic
bytes N B G J, every other field zero, a checksum byte equal to the sum of
all the other bytes mod 256, and crashed() reporting false. -/
theorem savestate_c6 (s : SysState)
    (h : headerOk (deserialize s.eeprom) = false) :
    (savestate_init true s).2.1.gamesave = formatRecord ∧
    (formatRecord.header0 = 78 ∧ formatRecord.header1 = 66 ∧
     formatRecord.header2 = 71 ∧ formatRecord.header3 = 74 ∧
     formatRecord.blacklist = 0 ∧ formatRecord.crashedflag = 0 ∧
     formatRecord.aidiff = 0 ∧ formatRecord.pointstowin = 0 ∧
     formatRecord.nextplaystyle = 0 ∧
     formatRecord.playerconts0 = 0 ∧ formatRecord.playerconts1 = 0 ∧
     formatRecord.playerconts2 = 0 ∧ formatRecord.playerconts3 = 0 ∧
     formatRecord.points0 = 0 ∧ formatRecord.points1 = 0 ∧
     formatRecord.points2 = 0 ∧ formatRecord.points3 = 0 ∧
     formatRecord.chooser = 0 ∧ formatRecord.curgame = 0 ∧
     formatRecord.checksum = (otherBytes formatRecord).sum % 256) ∧
    savestate_checkcrashed (savestate_init true s).2.1 = false := by
  have hg : (savestate_init true s).2.1.gamesave = formatRecord := by
    simp [savestate_init, h]
  have hc : savestate_checkcrashed (savestate_init true s).2.1 = false := by
    unfold savestate_checkcrashed
    rw [hg]
    decide
  exact ⟨hg, by decide, hc⟩

/-- C6, witness: an all-zero (blank) EEPROM image. -/
theorem savestate_c6_witness :
    (savestate_init true (boot (List.replicate 23 0))).2.1.gamesave = formatRecord ∧
    savestate_checkcrashed (savestate_init true (boot (List.replicate 23 0))).2.1
      = false :=
  ⟨(savestate_c6 (boot (List.replicate 23 0)) (by decide)).1,
   (savestate_c6 (boot (List.replicate 23 0)) (by decide)).2.2⟩

/-- C7: with can-persist set, a load call leaves state and storage untouched
and emits exactly, in program order: the player-active flags, the AI
difficulty, the points-to-win, the four per-player points, the next
playstyle, the chooser, and the request to resume the minigame at curgame -
and none of its effects touches storage. -/
theorem savestate_c7 (s : SysState) (h : s.cansave = true) :
    savestate_load s =
      (s, [Effect.setPlayercount
             [s.gamesave.playerconts0 != 0, s.gamesave.playerconts1 != 0,
              s.gamesave.playerconts2 != 0, s.gamesave.playerconts3 != 0],
           Effect.setAidifficulty s.gamesave.aidiff,
           Effect.setPointsToWin s.gamesave.pointstowin,
           Effect.setPoints 1 s.gamesave.points0,
           Effect.setPoints 2 s.gamesave.points1,
           Effect.setPoints 3 s.gamesave.points2,
           Effect.setPoints 4 s.gamesave.points3,
           Effect.setNextround s.gamesave.nextplaystyle,
           Effect.setCurchooser s.gamesave.chooser,
           Effect.loadMinigame s.gamesave.curgame]) ∧
    ((savestate_load s).2.all (fun e => ! e.isStorage)) = true := by
  constructor
  · simp [savestate_load, h]
  · simp [savestate_load, h, Effect.isStorage]

/-- C7, witness: the record with points 10 20 5 0, players 1-3 active and
player 4 inactive, and current game index 3 pushes exactly those values. -/
theorem savestate_c7_witness :
    savestate_load
        (⟨true, ⟨78, 66, 71, 74, 0, 1, 0, 0, 0, 1, 1, 1, 0, 10, 20, 5, 0, 0, 3, 0⟩,
          []⟩ : SysState) =
      ((⟨true, ⟨78, 66, 71, 74, 0, 1, 0, 0, 0, 1, 1, 1, 0, 10, 20, 5, 0, 0, 3, 0⟩,
          []⟩ : SysState),
       [Effect.setPlayercount [true, true, true, false],
        Effect.setAidifficulty 0,
        Effect.setPointsToWin 0,
        Effect.setPoints 1 10,
        Effect.setPoints 2 20,
        Effect.setPoints 3 5,
        Effect.setPoints 4 0,
        Effect.setNextround 0,
        Effect.setCurchooser 0,
        Effect.loadMinigame 3]) := by
  have h := (savestate_c7
    (⟨true, ⟨78, 66, 71, 74, 0, 1, 0, 0, 0, 1, 1, 1, 0, 10, 20, 5, 0, 0, 3, 0⟩,
      []⟩ : SysState) rfl).1
  simpa using h

/-- C8: the EEPROM-detection routine never writes to storage - the device
image is unchanged and no write effect is emitted, even on the reformat
branch - and it returns true exactly when the device is present. -/
theorem savestate_c8 (present : Bool) (s : SysState) :
    (savestate_init present s).2.1.eeprom = s.eeprom ∧
    ((savestate_init present s).2.2.all (fun e => ! e.isWrite)) = true ∧
    (savestate_init present s).1 = present := by
  cases present <;> simp [savestate_init, Effect.isWrite]

/-- C9: setBlacklist is not guarded by cansave: in a state where can-persist
is false it still overwrites the in-memory blacklist field with the packed
bits, a following getBlacklist returns the new flags, while save, load and
clear in that same state are exact no-ops. -/
theorem savestate_c9 (s : SysState) (h : s.cansave = false) (count : Nat)
    (hc : count ≤ 32) (flags : List Bool) (hl : flags.length = count) :
    (savestate_setblacklist count flags s).gamesave.blacklist
        = packBlacklist count flags ∧
    savestate_getblacklist count (savestate_setblacklist count flags s) = flags ∧
    (∀ c inp, savestate_save c inp s = (s, [])) ∧
    savestate_load s = (s, []) ∧
    savestate_clear s = (s, []) := by
  refine ⟨rfl, getblacklist_setblacklist count hc flags hl s, ?_, ?_, ?_⟩
  · intro c inp
    simp [savestate_save, h]
  · simp [savestate_load, h]
  · simp [savestate_clear, h]

/-- C9, witness: a state with cansave unset still round-trips the flags. -/
theorem savestate_c9_witness :
    (savestate_setblacklist 2 [true, false] (boot [])).gamesave.blacklist
        = packBlacklist 2 [true, false] ∧
    savestate_getblacklist 2 (savestate_setblacklist 2 [true, false] (boot []))
        = [true, false] ∧
    savestate_clear (boot []) = (boot [], []) :=
  ⟨(savestate_c9 (boot []) rfl 2 (by omega) [true, false] rfl).1,
   (savestate_c9 (boot []) rfl 2 (by omega) [true, false] rfl).2.1,
   (savestate_c9 (boot []) rfl 2 (by omega) [true, false] rfl).2.2.2.2⟩

/-- C10: setBlacklist replaces the whole blacklist field by the freshly
packed bits - a value that depends only on the count and the flags, with
every bit at or above the count clear - and changes nothing else: not the
checksum byte, none of the other record fields, not cansave, not storage. -/
theorem savestate_c10 (s : SysState) (count : Nat) (flags : List Bool) :
    (savestate_setblacklist count flags s).gamesave
        = { s.gamesave with blacklist := packBlacklist count flags } ∧
    (savestate_setblacklist count flags s).gamesave.checksum
        = s.gamesave.checksum ∧
    (∀ i, count ≤ i → (packBlacklist count flags).testBit i = false) ∧
    (savestate_setblacklist count flags s).cansave = s.cansave ∧
    (savestate_setblacklist count flags s).eeprom = s.eeprom := by
  refine ⟨rfl, rfl, ?_, rfl, rfl⟩
  intro i hi
  exact packBlacklist_testBit_ge count flags i hi

/-- C10, witness at count 3 with bit index 7 above the count. -/
theorem savestate_c10_witness :
    (savestate_setblacklist 3 [true, true, false] (boot [])).gamesave
        = { (boot []).gamesave with blacklist := packBlacklist 3 [true, true, false] } ∧
    (packBlacklist 3 [true, true, false]).testBit 7 = false :=
  ⟨(savestate_c10 (boot []) 3 [true, true, false]).1,
   (savestate_c10 (boot []) 3 [true, true, false]).2.2.1 7 (by omega)⟩
